import Mathlib

/-!
Shallow embedding of `src/options/view.rs` from the eza repository:
the option-resolution layer that turns a flag record (`Opts`) and an
environment lookup (`Vars`) into a rendering configuration.

Rust `Result<T, OptionsError>` is embedded as `RustResult T`, with a third
outcome `abort` modelling an unrecoverable `panic!`/`expect` in the source.
Machine integers are modelled as `Nat` (occurrence counts) and `Int`
(signed numeric values); overflow plays no role in the claims considered.
-/

namespace Eza

set_option maxRecDepth 4000

/-- `NumberSource` from the source: where a failed numeric parse came from.
Only the environment-variable constructor is exercised in `view.rs`. -/
inductive NumberSourceT where
  | Env (key : String)
  deriving DecidableEq

/-- `OptionsError` from the source, restricted to the variants raised in
`view.rs`. The underlying `ParseIntError` payload of `FailedParse` carries
no information relevant to the claims and is omitted. -/
inductive OptionsErrorT where
  | Useless (flag : String) (implies_long : Bool) (context : String)
  | Useless2 (flag : String) (req_a : String) (req_b : String)
  | BadArgument (option : String) (value : String)
  | FailedParse (raw : String) (src : NumberSourceT)
  deriving DecidableEq

/-- Computation outcome: `Ok`, a typed `OptionsError`, or a process abort
(`panic!` in the source). -/
inductive RustResult (α : Type) where
  | ok (a : α)
  | err (e : OptionsErrorT)
  | abort (msg : String)
  deriving DecidableEq

/-- Sequencing of fallible computations: the embedding of Rust's `?`. -/
def RustResult.bind {α β : Type} : RustResult α → (α → RustResult β) → RustResult β
  | .ok a, f => f a
  | .err e, _ => .err e
  | .abort m, _ => .abort m

/- ### String helpers (embedding Rust `str` operations) -/

/-- Numeric value of an ASCII digit, `none` for any other character. -/
def charDigit (c : Char) : Option Nat :=
  if '0' ≤ c ∧ c ≤ '9' then some (c.toNat - '0'.toNat) else none

/-- Accumulate a run of decimal digits; `none` on any non-digit. -/
def digitsToNatAux : List Char → Nat → Option Nat
  | [], acc => some acc
  | c :: r, acc =>
    match charDigit c with
    | some d => digitsToNatAux r (acc * 10 + d)
    | none => none

/-- Parse a non-empty all-digit character list to a `Nat`. -/
def digitsToNat (l : List Char) : Option Nat :=
  if l = [] then none else digitsToNatAux l 0

/-- Embedding of Rust's `str::parse` for an unsigned integer type: an
optional leading `+` followed by one or more decimal digits (a leading `-`
is rejected).  Overflow is not modelled; no claim depends on it. -/
def rustParseNat (s : String) : Option Nat :=
  match s.data with
  | '+' :: r => digitsToNat r
  | l => digitsToNat l

/-- Embedding of Rust's `str::parse` for a signed integer type: an optional
sign followed by one or more decimal digits.  Overflow is not modelled; no
claim depends on it. -/
def rustParseInt (s : String) : Option Int :=
  match s.data with
  | '+' :: r => (digitsToNat r).map Int.ofNat
  | '-' :: r => (digitsToNat r).map (fun n => -(n : Int))
  | l => (digitsToNat l).map Int.ofNat

/-- Embedding of `str::starts_with('+')`. -/
def startsWithPlus (s : String) : Bool :=
  match s.data with
  | c :: _ => c = '+'
  | [] => false

/-- The text after the leading `+` of a custom time-style word
(Rust `&fmt[1..]`, the `+` being one byte). -/
def afterPlus (s : String) : String :=
  String.mk s.data.tail

/-- Split a character list at every newline character (the pieces, in
order; a trailing newline yields a trailing empty piece). -/
def splitOnNewline : List Char → List (List Char)
  | [] => [[]]
  | c :: rest =>
    if c = '\n' then [] :: splitOnNewline rest
    else
      match splitOnNewline rest with
      | [] => [[c]]
      | l :: ls => (c :: l) :: ls

/-- Remove one trailing carriage return, as Rust's `str::lines` does for a
line that was terminated by `\n`. -/
def stripCR (l : List Char) : List Char :=
  match l.getLast? with
  | some c => if c = '\r' then l.dropLast else l
  | none => l

/-- Embedding of Rust's `str::lines` on a character list: split at `\n`,
strip one `\r` from every piece that was terminated by `\n`, and drop a
final empty piece (the optional final line ending). -/
def rustLinesChars (s : List Char) : List (List Char) :=
  let parts := splitOnNewline s
  let init := (parts.dropLast).map stripCR
  match parts.getLast? with
  | some last => if last = [] then init else init ++ [last]
  | none => init

/-- Embedding of Rust's `str::lines` producing `String` lines. -/
def rustLines (s : String) : List String :=
  (rustLinesChars s.data).map String.mk

/- ### The flag record and the environment -/

/-- `ColorScaleModeArgs` from the parser: the enumerated value of the
color-scale-mode flag. -/
inductive ColorScaleModeArgs where
  | Fixed
  | Gradient
  deriving DecidableEq

/-- The flag record `Opts` (fields used by `view.rs`): occurrence counts
are `Nat` (`> 0` means the flag is present), string-valued options are
`Option String`, and the explicit width is an optional signed integer
(per the external-interface description of the flag parser). -/
structure Opts where
  long : Nat := 0
  oneline : Nat := 0
  grid : Nat := 0
  tree : Nat := 0
  across : Nat := 0
  binary : Nat := 0
  bytes : Nat := 0
  inode : Nat := 0
  links : Nat := 0
  header : Nat := 0
  blocksize : Nat := 0
  group : Nat := 0
  numeric : Nat := 0
  mounts : Nat := 0
  git : Nat := 0
  no_git : Nat := 0
  git_repos : Nat := 0
  git_repos_no_status : Nat := 0
  recurse : Nat := 0
  level : Option Nat := none
  extended : Nat := 0
  security_context : Nat := 0
  modified : Nat := 0
  changed : Nat := 0
  accessed : Nat := 0
  created : Nat := 0
  no_time : Nat := 0
  file_flags : Nat := 0
  octal : Nat := 0
  no_permissions : Nat := 0
  no_filesize : Nat := 0
  no_user : Nat := 0
  smart_group : Nat := 0
  time : Option String := none
  time_style : Option String := none
  color_scale : Option String := none
  color_scale_mode : ColorScaleModeArgs := .Gradient
  width : Option Int := none
  deriving DecidableEq

/-- An environment: a lookup from variable name to optional value.
(`Vars::get`; non-UTF-8 values are outside the model, so the
`into_string().ok()` conversions in the source are identities here.) -/
def Vars : Type := String → Option String

/-- Modelled from the spec: `Vars::get_with_fallback` is not part of the
visible source (`options/vars.rs`); per the spec's external-interface
section the primary key takes precedence and the legacy key is tried
second. -/
def getWithFallback (v : Vars) (primary secondary : String) : Option String :=
  match v primary with
  | some x => some x
  | none => v secondary

/-- Modelled from the spec: `Vars::source` is not part of the visible
source; it reports which of the two keys actually supplied the value,
primary first. -/
def varsSource (v : Vars) (primary secondary : String) : Option String :=
  match v primary with
  | some _ => some primary
  | none =>
    match v secondary with
    | some _ => some secondary
    | none => none

/-- Environment-variable key names used by `view.rs` (`options/vars.rs`
constants; names fixed by the variables they denote). -/
def COLUMNS_VAR : String := "COLUMNS"

/-- Current grid-row-threshold key. -/
def EZA_GRID_ROWS : String := "EZA_GRID_ROWS"

/-- Legacy grid-row-threshold key. -/
def EXA_GRID_ROWS : String := "EXA_GRID_ROWS"

/-- Legacy git-override key (primary in the `Columns::deduce` lookup). -/
def EXA_OVERRIDE_GIT : String := "EXA_OVERRIDE_GIT"

/-- Current git-override key. -/
def EZA_OVERRIDE_GIT : String := "EZA_OVERRIDE_GIT"

/-- Current minimum-luminance key. -/
def EZA_MIN_LUMINANCE : String := "EZA_MIN_LUMINANCE"

/-- Legacy minimum-luminance key. -/
def EXA_MIN_LUMINANCE : String := "EXA_MIN_LUMINANCE"

/-- Timestamp-style environment key. -/
def TIME_STYLE_VAR : String := "TIME_STYLE"

/- ### Configuration value types -/

/-- `SizeFormat` from `output/table.rs`. -/
inductive SizeFormat where
  | DecimalBytes
  | BinaryBytes
  | JustBytes
  deriving DecidableEq

/-- `UserFormat` from `output/table.rs`. -/
inductive UserFormat where
  | Name
  | Numeric
  deriving DecidableEq

/-- `GroupFormat` from `output/table.rs`. -/
inductive GroupFormat where
  | Regular
  | Smart
  deriving DecidableEq

/-- Modelled from the spec: `FlagsFormat` and its resolution live outside
the visible source (`output/table.rs`); the spec only bundles it inside
`TableOptions`, so it is modelled as a single-valued type. -/
inductive FlagsFormat where
  | deflt
  deriving DecidableEq

/-- `TimeFormat` from `output/time.rs` (variant shapes as given in the
spec's data model and exercised by `view.rs`). -/
inductive TimeFormat where
  | DefaultFormat
  | Relative
  | ISOFormat
  | LongISO
  | FullISO
  | Custom (non_recent : String) (recent : Option String)
  deriving DecidableEq

/-- `TimeTypes` from `output/table.rs`: which time columns to show. -/
structure TimeTypes where
  modified : Bool
  changed : Bool
  accessed : Bool
  created : Bool
  deriving DecidableEq

/-- Modelled from the spec: `impl Default for TimeTypes` is outside the
visible source; per the spec's data model (and the in-file tests) the
default shows only the modified time. -/
def TimeTypes.dfault : TimeTypes :=
  { modified := true, changed := false, accessed := false, created := false }

/-- `ColorScaleMode` from `output/color_scale.rs`. -/
inductive ColorScaleMode where
  | Fixed
  | Gradient
  deriving DecidableEq

/-- `ColorScaleOptions` from `output/color_scale.rs`. -/
structure ColorScaleOptions where
  mode : ColorScaleMode
  min_luminance : Int
  size : Bool
  age : Bool
  deriving DecidableEq

/-- `Columns` from `output/table.rs`: the column toggles of the long view. -/
structure Columns where
  time_types : TimeTypes
  inode : Bool
  links : Bool
  blocksize : Bool
  group : Bool
  git : Bool
  subdir_git_repos : Bool
  subdir_git_repos_no_stat : Bool
  octal : Bool
  security_context : Bool
  file_flags : Bool
  permissions : Bool
  filesize : Bool
  user : Bool
  deriving DecidableEq

/-- `Options` from `output/table.rs` (`TableOptions`). -/
structure TableOptions where
  size_format : SizeFormat
  time_format : TimeFormat
  user_format : UserFormat
  group_format : GroupFormat
  flags_format : FlagsFormat
  columns : Columns
  deriving DecidableEq

/-- `grid::Options` from `output/grid.rs`. -/
structure GridOptions where
  across : Bool
  deriving DecidableEq

/-- `details::Options` from `output/details.rs`. -/
structure DetailsOptions where
  table : Option TableOptions
  header : Bool
  xattr : Bool
  secattr : Bool
  mounts : Bool
  color_scale : ColorScaleOptions
  deriving DecidableEq

/-- `RowThreshold` from `output/grid_details.rs`. -/
inductive RowThreshold where
  | MinimumRows (n : Nat)
  | AlwaysGrid
  deriving DecidableEq

/-- `grid_details::Options` from `output/grid_details.rs`. -/
structure GridDetailsOptions where
  details : DetailsOptions
  row_threshold : RowThreshold
  deriving DecidableEq

/-- `Mode` from `output/mod.rs`: the selected view mode. -/
inductive Mode where
  | Grid (g : GridOptions)
  | Details (d : DetailsOptions)
  | GridDetails (gd : GridDetailsOptions)
  | Lines
  deriving DecidableEq

/-- `TerminalWidth` from `output/mod.rs`; the payload is the signed
integer type of the width flag. -/
inductive TerminalWidth where
  | Set (w : Int)
  | Automatic
  deriving DecidableEq

/- ### The deduction functions of `view.rs` -/

/-- `TerminalWidth::deduce`: explicit width flag first (`>= 1` sets it,
anything smaller means automatic), then the `COLUMNS` environment
variable (parse failure is a `FailedParse` error), else automatic. -/
def TerminalWidth.deduce (o : Opts) (v : Vars) : RustResult TerminalWidth :=
  match o.width with
  | some w => if 1 ≤ w then .ok (.Set w) else .ok .Automatic
  | none =>
    match v COLUMNS_VAR with
    | some columns =>
      match rustParseInt columns with
      | some n => .ok (.Set n)
      | none => .err (.FailedParse columns (.Env COLUMNS_VAR))
    | none => .ok .Automatic

/-- `RowThreshold::deduce`: the grid-row threshold from the environment
(current key first, then legacy); parse failure is a `FailedParse` error
attributed to the key that supplied the value. -/
def RowThreshold.deduce (v : Vars) : RustResult RowThreshold :=
  match getWithFallback v EZA_GRID_ROWS EXA_GRID_ROWS with
  | some columns =>
    match rustParseNat columns with
    | some rows => .ok (.MinimumRows rows)
    | none =>
      .err (.FailedParse columns
        (.Env ((varsSource v EZA_GRID_ROWS EXA_GRID_ROWS).getD EZA_GRID_ROWS)))
  | none => .ok .AlwaysGrid

/-- `grid::Options::deduce`. -/
def GridOptions.deduce (o : Opts) : GridOptions :=
  { across := decide (0 < o.across) }

/-- `SizeFormat::deduce`: binary beats bytes beats decimal. -/
def SizeFormat.deduce (o : Opts) : SizeFormat :=
  if 0 < o.binary then .BinaryBytes
  else if 0 < o.bytes then .JustBytes
  else .DecimalBytes

/-- `UserFormat::deduce`. -/
def UserFormat.deduce (o : Opts) : UserFormat :=
  if 0 < o.numeric then .Numeric else .Name

/-- `GroupFormat::deduce`. -/
def GroupFormat.deduce (o : Opts) : GroupFormat :=
  if 0 < o.smart_group then .Smart else .Regular

/-- Modelled from the spec: `FlagsFormat::deduce` is outside the visible
source; it is a pure aggregation leaf returning the single value here. -/
def FlagsFormat.deduce (_v : Vars) : FlagsFormat := .deflt

/-- The word the time-style resolution works on: the explicit `time-style`
flag value if present, else the `TIME_STYLE` environment value unless it
is empty (the first block of `TimeFormat::deduce`). -/
def timeStyleWord (o : Opts) (v : Vars) : Option String :=
  match o.time_style with
  | some w => some w
  | none =>
    match v TIME_STYLE_VAR with
    | some t => if t ≠ "" then some t else none
    | none => none

/-- The panic message for an empty non-recent custom time format. -/
def emptyNonRecentMsg : String :=
  "Custom timestamp format is empty, please supply a chrono format string after the plus sign."

/-- The panic message for an empty recent custom time format. -/
def emptyRecentMsg : String :=
  "Custom timestamp format for recent files is empty, please supply a chrono format string at the second line."

/-- `TimeFormat::deduce`: resolve the style word (flag first, then the
`TIME_STYLE` variable unless empty, else the default format), match it
case-sensitively against the known names, treat a leading `+` as a
one-or-two-line custom format (panicking on empty lines, as the source
does via `expect`/`panic!`), and reject anything else as `BadArgument`. -/
def TimeFormat.deduce (o : Opts) (v : Vars) : RustResult TimeFormat :=
  match timeStyleWord o v with
  | none => .ok .DefaultFormat
  | some word =>
    if word = "default" then .ok .DefaultFormat
    else if word = "relative" then .ok .Relative
    else if word = "iso" then .ok .ISOFormat
    else if word = "long-iso" then .ok .LongISO
    else if word = "full-iso" then .ok .FullISO
    else if startsWithPlus word then
      match rustLines (afterPlus word) with
      | [] => .abort emptyNonRecentMsg
      | non_recent :: rest =>
        if non_recent = "" then .abort emptyNonRecentMsg
        else
          match rest with
          | [] => .ok (.Custom non_recent none)
          | recent :: _ =>
            if recent = "" then .abort emptyRecentMsg
            else .ok (.Custom non_recent (some recent))
    else .err (.BadArgument "time-style" word)

/-- `TimeTypes::deduce`: `no-time` forces everything off; a `time=word`
selector conflicts with any individual time flag (first conflicting flag
reported, in source order) and otherwise must be a known word; individual
flags select exactly themselves; no input at all gives the default. -/
def TimeTypes.deduce (o : Opts) : RustResult TimeTypes :=
  if 0 < o.no_time then
    .ok { modified := false, changed := false, accessed := false, created := false }
  else
    match o.time with
    | some word =>
      if 0 < o.modified then .err (.Useless "modified" true "time")
      else if 0 < o.changed then .err (.Useless "changed" true "time")
      else if 0 < o.accessed then .err (.Useless "accessed" true "time")
      else if 0 < o.created then .err (.Useless "created" true "time")
      else if word = "mod" ∨ word = "modified" then
        .ok { modified := true, changed := false, accessed := false, created := false }
      else if word = "ch" ∨ word = "changed" then
        .ok { modified := false, changed := true, accessed := false, created := false }
      else if word = "acc" ∨ word = "accessed" then
        .ok { modified := false, changed := false, accessed := true, created := false }
      else if word = "cr" ∨ word = "created" then
        .ok { modified := false, changed := false, accessed := false, created := true }
      else .err (.BadArgument "time" word)
    | none =>
      if 0 < o.modified ∨ 0 < o.changed ∨ 0 < o.accessed ∨ 0 < o.created then
        .ok { modified := decide (0 < o.modified), changed := decide (0 < o.changed),
              accessed := decide (0 < o.accessed), created := decide (0 < o.created) }
      else .ok TimeTypes.dfault

/-- The resolved minimum luminance of `ColorScaleOptions::deduce`: the
fallback-key environment value when it parses to an integer inside
`[-100, 100]`, else the default `40`. -/
def minLuminanceOf (v : Vars) : Int :=
  match getWithFallback v EZA_MIN_LUMINANCE EXA_MIN_LUMINANCE with
  | some s =>
    match rustParseInt s with
    | some l => if -100 ≤ l ∧ l ≤ 100 then l else 40
    | none => 40
  | none => 40

/-- The token loop of `ColorScaleOptions::deduce`: apply the
comma-separated tokens left to right, failing on the first unknown one. -/
def colorScaleWords : List String → ColorScaleOptions → RustResult ColorScaleOptions
  | [], acc => .ok acc
  | w :: ws, acc =>
    if w = "all" then colorScaleWords ws { acc with size := true, age := true }
    else if w = "age" then colorScaleWords ws { acc with age := true }
    else if w = "size" then colorScaleWords ws { acc with size := true }
    else .err (.BadArgument "color-scale" w)

/-- Split a character list at every comma (Rust `str::split(',')`). -/
def splitOnComma : List Char → List (List Char)
  | [] => [[]]
  | c :: rest =>
    if c = ',' then [] :: splitOnComma rest
    else
      match splitOnComma rest with
      | [] => [[c]]
      | l :: ls => (c :: l) :: ls

/-- `ColorScaleOptions::deduce`: lenient luminance resolution, mode from
the enumerated flag, then the comma-separated dimension tokens. -/
def ColorScaleOptions.deduce (o : Opts) (v : Vars) : RustResult ColorScaleOptions :=
  let min_luminance := minLuminanceOf v
  let mode : ColorScaleMode :=
    match o.color_scale_mode with
    | .Fixed => .Fixed
    | .Gradient => .Gradient
  let options : ColorScaleOptions :=
    { mode, min_luminance, size := false, age := false }
  match o.color_scale with
  | none => .ok options
  | some words => colorScaleWords ((splitOnComma words.data).map String.mk) options

/-- `Columns::deduce`: the git-related booleans honour the `no-git` flag
and the git-override environment pair, with `repos` taking priority over
`repos-no-status`; the rest are independent flag toggles.  `xe` is the
platform xattr capability (`xattr::ENABLED`). -/
def Columns.deduce (o : Opts) (v : Vars) (xe : Bool) : RustResult Columns :=
  (TimeTypes.deduce o).bind fun time_types =>
    let no_git_env := (getWithFallback v EXA_OVERRIDE_GIT EZA_OVERRIDE_GIT).isSome
    .ok {
      time_types
      inode := decide (0 < o.inode)
      links := decide (0 < o.links)
      blocksize := decide (0 < o.blocksize)
      group := decide (0 < o.group)
      git := decide (0 < o.git) && o.no_git == 0 && !no_git_env
      subdir_git_repos := decide (0 < o.git_repos) && o.no_git == 0 && !no_git_env
      subdir_git_repos_no_stat :=
        !(decide (0 < o.git_repos) && o.no_git == 0 && !no_git_env) &&
          decide (0 < o.git_repos_no_status) && o.no_git == 0 && !no_git_env
      octal := decide (0 < o.octal)
      security_context := xe && decide (0 < o.security_context)
      file_flags := decide (0 < o.file_flags)
      permissions := o.no_permissions == 0
      filesize := o.no_filesize == 0
      user := o.no_user == 0
    }

/-- `TableOptions::deduce` (field initialisers evaluated in source
order, so a time-format error surfaces before a columns error). -/
def TableOptions.deduce (o : Opts) (v : Vars) (xe : Bool) : RustResult TableOptions :=
  (TimeFormat.deduce o v).bind fun time_format =>
    let flags_format := FlagsFormat.deduce v
    let size_format := SizeFormat.deduce o
    let user_format := UserFormat.deduce o
    let group_format := GroupFormat.deduce o
    (Columns.deduce o v xe).bind fun columns =>
      .ok { size_format, time_format, user_format, group_format, flags_format, columns }

/-- `details::Options::deduce_tree`. -/
def DetailsOptions.deduce_tree (o : Opts) (v : Vars) (xe : Bool) : RustResult DetailsOptions :=
  (ColorScaleOptions.deduce o v).bind fun color_scale =>
    .ok {
      table := none
      header := false
      xattr := xe && decide (0 < o.extended)
      secattr := xe && decide (0 < o.security_context)
      mounts := decide (0 < o.mounts)
      color_scale
    }

/-- `details::Options::deduce_long`: the strict pre-checks for `across`
without `grid` and for `oneline`, then the table and color-scale
construction (struct fields evaluated in source order: table first). -/
def DetailsOptions.deduce_long (o : Opts) (v : Vars) (strict xe : Bool) :
    RustResult DetailsOptions :=
  if strict ∧ 0 < o.across ∧ o.grid = 0 then
    .err (.Useless "across" true "long")
  else if strict ∧ 0 < o.oneline then
    .err (.Useless "one-line" true "long")
  else
    (TableOptions.deduce o v xe).bind fun table =>
      (ColorScaleOptions.deduce o v).bind fun color_scale =>
        .ok {
          table := some table
          header := decide (0 < o.header)
          xattr := xe && decide (0 < o.extended)
          secattr := xe && decide (0 < o.security_context)
          mounts := decide (0 < o.mounts)
          color_scale
        }

/-- `Mode::strict_check_long_flags`: the fixed-order scan over flags that
are useless without `--long`, then the `git` and `level` checks. -/
def strict_check_long_flags (o : Opts) : RustResult Unit :=
  if 0 < o.binary then .err (.Useless "binary" false "long")
  else if 0 < o.bytes then .err (.Useless "bytes" false "long")
  else if 0 < o.inode then .err (.Useless "inode" false "long")
  else if 0 < o.links then .err (.Useless "links" false "long")
  else if 0 < o.header then .err (.Useless "header" false "long")
  else if 0 < o.blocksize then .err (.Useless "blocksize" false "long")
  else if o.time.isSome then .err (.Useless "time" false "long")
  else if 0 < o.group then .err (.Useless "group" false "long")
  else if 0 < o.numeric then .err (.Useless "numeric" false "long")
  else if 0 < o.mounts then .err (.Useless "mounts" false "long")
  else if 0 < o.git ∧ o.no_git = 0 then .err (.Useless "git" false "long")
  else if o.level.isSome ∧ o.recurse = 0 ∧ o.tree = 0 then
    .err (.Useless2 "level" "recurse" "tree")
  else .ok ()

/-- `Mode::deduce`: the view-mode state machine.  No mode flag at all
gives the grid (after the strict check); `long` wins and combines with
`grid` into grid-details; otherwise (after the strict check) `tree`, then
`oneline`, then the grid fallback. -/
def Mode.deduce (o : Opts) (v : Vars) (strict xe : Bool) : RustResult Mode :=
  if ¬(0 < o.long ∨ 0 < o.oneline ∨ 0 < o.grid ∨ 0 < o.tree) then
    (if strict then strict_check_long_flags o else .ok ()).bind fun _ =>
      .ok (.Grid (GridOptions.deduce o))
  else if 0 < o.long then
    (DetailsOptions.deduce_long o v strict xe).bind fun details =>
      if 0 < o.grid then
        (RowThreshold.deduce v).bind fun row_threshold =>
          .ok (.GridDetails { details, row_threshold })
      else .ok (.Details details)
  else
    (if strict then strict_check_long_flags o else .ok ()).bind fun _ =>
      if 0 < o.tree then
        (DetailsOptions.deduce_tree o v xe).bind fun details =>
          .ok (.Details details)
      else if 0 < o.oneline then .ok .Lines
      else .ok (.Grid (GridOptions.deduce o))

/-- The empty environment, for concrete evaluations. -/
def noVars : Vars := fun _ => none

/-- A one-entry environment, for concrete evaluations. -/
def oneVar (k val : String) : Vars := fun q => if q = k then some val else none

/-- Concrete example value: the color-scale options resolved from an
empty environment with no color-scale flag. -/
def defaultColorScale : ColorScaleOptions :=
  { mode := .Gradient, min_luminance := 40, size := false, age := false }

/-- Concrete example value: the columns resolved from an all-default flag
record in an empty environment. -/
def defaultColumns : Columns :=
  { time_types := TimeTypes.dfault
    inode := false
    links := false
    blocksize := false
    group := false
    git := false
    subdir_git_repos := false
    subdir_git_repos_no_stat := false
    octal := false
    security_context := false
    file_flags := false
    permissions := true
    filesize := true
    user := true }

/-- Concrete example value: the table options resolved from an
all-default flag record in an empty environment. -/
def defaultTable : TableOptions :=
  { size_format := .DecimalBytes
    time_format := .DefaultFormat
    user_format := .Name
    group_format := .Regular
    flags_format := .deflt
    columns := defaultColumns }

/-- Concrete example value: the long-path details for an all-default flag
record in an empty environment. -/
def defaultLongDetails : DetailsOptions :=
  { table := some defaultTable
    header := false
    xattr := false
    secattr := false
    mounts := false
    color_scale := defaultColorScale }

/-- Concrete example value: the tree-path details for an all-default flag
record in an empty environment. -/
def defaultTreeDetails : DetailsOptions :=
  { table := none
    header := false
    xattr := false
    secattr := false
    mounts := false
    color_scale := defaultColorScale }

/- ### General lemmas about `RustResult` -/

theorem RustResult.bind_ok_iff {α β : Type} (r : RustResult α) (f : α → RustResult β) (b : β) :
    r.bind f = .ok b ↔ ∃ a, r = .ok a ∧ f a = .ok b := by
  cases r <;> simp [RustResult.bind]

theorem RustResult.bind_err_iff {α β : Type} (r : RustResult α) (f : α → RustResult β)
    (e : OptionsErrorT) :
    r.bind f = .err e ↔ (r = .err e ∨ ∃ a, r = .ok a ∧ f a = .err e) := by
  cases r <;> simp [RustResult.bind]

/- ### Claim theorems -/

/-- C5: `TerminalWidth::deduce` priority: an explicit width of at least 1
is used as-is; an explicit width of 0 means automatic (not an error);
otherwise a present `COLUMNS` value is parsed (success gives `Set`,
failure a `FailedParse` naming the variable); otherwise automatic. -/
theorem terminal_width_priority (o : Opts) (v : Vars) :
    (∀ w : Int, o.width = some w → 1 ≤ w → TerminalWidth.deduce o v = .ok (.Set w)) ∧
    (o.width = some 0 → TerminalWidth.deduce o v = .ok .Automatic) ∧
    (o.width = none → ∀ s, v COLUMNS_VAR = some s →
      (∀ n, rustParseInt s = some n → TerminalWidth.deduce o v = .ok (.Set n)) ∧
      (rustParseInt s = none →
        TerminalWidth.deduce o v = .err (.FailedParse s (.Env COLUMNS_VAR)))) ∧
    (o.width = none → v COLUMNS_VAR = none → TerminalWidth.deduce o v = .ok .Automatic) := by
  refine ⟨?_, ?_, ?_, ?_⟩
  · intro w hw h1
    simp [TerminalWidth.deduce, hw, h1]
  · intro hw
    simp [TerminalWidth.deduce, hw]
  · intro hw s hs
    refine ⟨?_, ?_⟩
    · intro n hn
      simp [TerminalWidth.deduce, hw, hs, hn]
    · intro hn
      simp [TerminalWidth.deduce, hw, hs, hn]
  · intro hw hs
    simp [TerminalWidth.deduce, hw, hs]

/-- Witness for C5: all four branches at concrete inputs. -/
theorem terminal_width_priority_witness :
    TerminalWidth.deduce { width := some 80 } noVars = .ok (.Set 80) ∧
    TerminalWidth.deduce { width := some 0 } noVars = .ok .Automatic ∧
    TerminalWidth.deduce {} (oneVar COLUMNS_VAR "91") = .ok (.Set 91) ∧
    TerminalWidth.deduce {} (oneVar COLUMNS_VAR "bad") =
      .err (.FailedParse "bad" (.Env COLUMNS_VAR)) ∧
    TerminalWidth.deduce {} noVars = .ok .Automatic :=
  ⟨(terminal_width_priority _ noVars).1 80 rfl (by decide),
   (terminal_width_priority _ noVars).2.1 rfl,
   ((terminal_width_priority {} (oneVar COLUMNS_VAR "91")).2.2.1 rfl "91" (by decide)).1
     91 (by decide),
   ((terminal_width_priority {} (oneVar COLUMNS_VAR "bad")).2.2.1 rfl "bad" (by decide)).2
     (by decide),
   (terminal_width_priority {} noVars).2.2.2 rfl rfl⟩

/-- C10: an explicit width strictly below 1 — including every negative
value — resolves to `Automatic`, with no error and independently of the
environment (the statement holds for every `v`, so `COLUMNS` is never
consulted). -/
theorem terminal_width_below_one_automatic (o : Opts) (v : Vars) (w : Int)
    (hw : o.width = some w) (hlt : w < 1) :
    TerminalWidth.deduce o v = .ok .Automatic := by
  have h1 : ¬(1 ≤ w) := by omega
  simp [TerminalWidth.deduce, hw, h1]

/-- Witness for C10: a negative width with `COLUMNS` present is still
automatic. -/
theorem terminal_width_below_one_automatic_witness :
    TerminalWidth.deduce { width := some (-5) } (oneVar COLUMNS_VAR "80") = .ok .Automatic :=
  terminal_width_below_one_automatic _ _ (-5) rfl (by decide)

/-- C1: whenever `Mode::deduce` succeeds, the mode follows the fixed
transition-table order: no mode flag gives `Grid`; `long` wins and is
wrapped into `GridDetails` exactly when `grid` is also set (whatever
`oneline` and `tree` are); otherwise `tree` gives the tree details,
then `oneline` gives `Lines`, then the `Grid` fallback. -/
theorem mode_deduce_precedence (o : Opts) (v : Vars) (strict xe : Bool) (m : Mode)
    (h : Mode.deduce o v strict xe = .ok m) :
    (o.long = 0 ∧ o.oneline = 0 ∧ o.grid = 0 ∧ o.tree = 0 →
      m = .Grid (GridOptions.deduce o)) ∧
    (0 < o.long → 0 < o.grid → ∃ d rt,
      DetailsOptions.deduce_long o v strict xe = .ok d ∧ RowThreshold.deduce v = .ok rt ∧
      m = .GridDetails { details := d, row_threshold := rt }) ∧
    (0 < o.long → o.grid = 0 → ∃ d,
      DetailsOptions.deduce_long o v strict xe = .ok d ∧ m = .Details d) ∧
    (o.long = 0 → 0 < o.tree → ∃ d,
      DetailsOptions.deduce_tree o v xe = .ok d ∧ m = .Details d) ∧
    (o.long = 0 → o.tree = 0 → 0 < o.oneline → m = .Lines) ∧
    (o.long = 0 → o.tree = 0 → o.oneline = 0 → m = .Grid (GridOptions.deduce o)) := by
  rw [Mode.deduce] at h
  by_cases hml : ¬(0 < o.long ∨ 0 < o.oneline ∨ 0 < o.grid ∨ 0 < o.tree)
  · rw [if_pos hml] at h
    obtain ⟨u, -, h2⟩ := (RustResult.bind_ok_iff _ _ _).mp h
    injection h2 with h2
    rw [not_or, not_or, not_or] at hml
    obtain ⟨hL, hO, hG, hT⟩ := hml
    exact ⟨fun _ => h2.symm,
      fun hl _ => absurd hl hL,
      fun hl _ => absurd hl hL,
      fun _ ht => absurd ht hT,
      fun _ _ ho => absurd ho hO,
      fun _ _ _ => h2.symm⟩
  · rw [if_neg hml] at h
    by_cases hl : 0 < o.long
    · rw [if_pos hl] at h
      obtain ⟨d, hd, h2⟩ := (RustResult.bind_ok_iff _ _ _).mp h
      by_cases hg : 0 < o.grid
      · rw [if_pos hg] at h2
        obtain ⟨rt, hrt, h3⟩ := (RustResult.bind_ok_iff _ _ _).mp h2
        injection h3 with h3
        exact ⟨fun hz => absurd hl (by omega),
          fun _ _ => ⟨d, rt, hd, hrt, h3.symm⟩,
          fun _ hg0 => absurd hg (by omega),
          fun hl0 _ => absurd hl (by omega),
          fun hl0 _ _ => absurd hl (by omega),
          fun hl0 _ _ => absurd hl (by omega)⟩
      · rw [if_neg hg] at h2
        injection h2 with h2
        exact ⟨fun hz => absurd hl (by omega),
          fun _ hgp => absurd hgp hg,
          fun _ _ => ⟨d, hd, h2.symm⟩,
          fun hl0 _ => absurd hl (by omega),
          fun hl0 _ _ => absurd hl (by omega),
          fun hl0 _ _ => absurd hl (by omega)⟩
    · rw [if_neg hl] at h
      obtain ⟨u, -, h2⟩ := (RustResult.bind_ok_iff _ _ _).mp h
      by_cases ht : 0 < o.tree
      · rw [if_pos ht] at h2
        obtain ⟨d, hd, h3⟩ := (RustResult.bind_ok_iff _ _ _).mp h2
        injection h3 with h3
        exact ⟨fun hz => absurd ht (by omega),
          fun hlp _ => absurd hlp hl,
          fun hlp _ => absurd hlp hl,
          fun _ _ => ⟨d, hd, h3.symm⟩,
          fun _ ht0 _ => absurd ht (by omega),
          fun _ ht0 _ => absurd ht (by omega)⟩
      · rw [if_neg ht] at h2
        by_cases ho : 0 < o.oneline
        · rw [if_pos ho] at h2
          injection h2 with h2
          exact ⟨fun hz => absurd ho (by omega),
            fun hlp _ => absurd hlp hl,
            fun hlp _ => absurd hlp hl,
            fun _ htp => absurd htp ht,
            fun _ _ _ => h2.symm,
            fun _ _ ho0 => absurd ho (by omega)⟩
        · rw [if_neg ho] at h2
          injection h2 with h2
          exact ⟨fun _ => h2.symm,
            fun hlp _ => absurd hlp hl,
            fun hlp _ => absurd hlp hl,
            fun _ htp => absurd htp ht,
            fun _ _ hop => absurd hop ho,
            fun _ _ _ => h2.symm⟩

/-- Witness for C1: grid-only input (grid mode), long+grid+oneline input
(grid-details, `long` beating `oneline`), and tree+oneline input (tree
details beating lines). -/
theorem mode_deduce_precedence_witness :
    Mode.deduce { grid := 1 } noVars false false = .ok (.Grid (GridOptions.deduce { grid := 1 })) ∧
    (∃ d rt,
      DetailsOptions.deduce_long { long := 1, grid := 1, oneline := 1 } noVars false false = .ok d ∧
      RowThreshold.deduce noVars = .ok rt ∧
      Mode.deduce { long := 1, grid := 1, oneline := 1 } noVars false false =
        .ok (.GridDetails { details := d, row_threshold := rt })) ∧
    (∃ d, DetailsOptions.deduce_tree { tree := 1, oneline := 1 } noVars false = .ok d ∧
      Mode.deduce { tree := 1, oneline := 1 } noVars false false = .ok (.Details d)) := by
  refine ⟨?_, ?_, ?_⟩
  · have h : Mode.deduce { grid := 1 } noVars false false = .ok (.Grid { across := false }) := by
      decide
    have hc := (mode_deduce_precedence { grid := 1 } noVars false false _ h).2.2.2.2.2 rfl rfl rfl
    rw [← hc]
    exact h
  · have h : Mode.deduce { long := 1, grid := 1, oneline := 1 } noVars false false =
        .ok (.GridDetails { details := defaultLongDetails, row_threshold := .AlwaysGrid }) := by
      decide
    obtain ⟨d, rt, hd, hrt, hm⟩ :=
      (mode_deduce_precedence { long := 1, grid := 1, oneline := 1 } noVars false false _ h).2.1
        (by decide) (by decide)
    refine ⟨d, rt, hd, hrt, ?_⟩
    rw [← hm]
    exact h
  · have h : Mode.deduce { tree := 1, oneline := 1 } noVars false false =
        .ok (.Details defaultTreeDetails) := by
      decide
    obtain ⟨d, hd, hm⟩ :=
      (mode_deduce_precedence { tree := 1, oneline := 1 } noVars false false _ h).2.2.2.1
        rfl (by decide)
    refine ⟨d, hd, ?_⟩
    rw [← hm]
    exact h

/-- C2: with no mode flag set, strict mode reports the first set flag of
the fixed list binary, bytes, inode, links, header, blocksize, time,
group, numeric, mounts as `Useless(name, false, "long")`, while the same
record without strict mode resolves to a `Grid` mode. -/
theorem strict_useless_long_first (o : Opts) (v : Vars) (xe : Bool)
    (hmode : o.long = 0 ∧ o.oneline = 0 ∧ o.grid = 0 ∧ o.tree = 0) :
    (0 < o.binary →
      Mode.deduce o v true xe = .err (.Useless "binary" false "long")) ∧
    (o.binary = 0 → 0 < o.bytes →
      Mode.deduce o v true xe = .err (.Useless "bytes" false "long")) ∧
    (o.binary = 0 → o.bytes = 0 → 0 < o.inode →
      Mode.deduce o v true xe = .err (.Useless "inode" false "long")) ∧
    (o.binary = 0 → o.bytes = 0 → o.inode = 0 → 0 < o.links →
      Mode.deduce o v true xe = .err (.Useless "links" false "long")) ∧
    (o.binary = 0 → o.bytes = 0 → o.inode = 0 → o.links = 0 → 0 < o.header →
      Mode.deduce o v true xe = .err (.Useless "header" false "long")) ∧
    (o.binary = 0 → o.bytes = 0 → o.inode = 0 → o.links = 0 → o.header = 0 →
      0 < o.blocksize →
      Mode.deduce o v true xe = .err (.Useless "blocksize" false "long")) ∧
    (o.binary = 0 → o.bytes = 0 → o.inode = 0 → o.links = 0 → o.header = 0 →
      o.blocksize = 0 → o.time.isSome →
      Mode.deduce o v true xe = .err (.Useless "time" false "long")) ∧
    (o.binary = 0 → o.bytes = 0 → o.inode = 0 → o.links = 0 → o.header = 0 →
      o.blocksize = 0 → o.time = none → 0 < o.group →
      Mode.deduce o v true xe = .err (.Useless "group" false "long")) ∧
    (o.binary = 0 → o.bytes = 0 → o.inode = 0 → o.links = 0 → o.header = 0 →
      o.blocksize = 0 → o.time = none → o.group = 0 → 0 < o.numeric →
      Mode.deduce o v true xe = .err (.Useless "numeric" false "long")) ∧
    (o.binary = 0 → o.bytes = 0 → o.inode = 0 → o.links = 0 → o.header = 0 →
      o.blocksize = 0 → o.time = none → o.group = 0 → o.numeric = 0 → 0 < o.mounts →
      Mode.deduce o v true xe = .err (.Useless "mounts" false "long")) ∧
    Mode.deduce o v false xe = .ok (.Grid (GridOptions.deduce o)) := by
  obtain ⟨hL, hO, hG, hT⟩ := hmode
  refine ⟨?_, ?_, ?_, ?_, ?_, ?_, ?_, ?_, ?_, ?_, ?_⟩ <;>
    intros <;>
    simp_all [Mode.deduce, strict_check_long_flags, RustResult.bind]

/-- Witness for C2: `bytes` alone (and together with later-listed
`mounts`) is reported under strict mode and harmless otherwise. -/
theorem strict_useless_long_first_witness :
    Mode.deduce { bytes := 1, mounts := 1 } noVars true false =
      .err (.Useless "bytes" false "long") ∧
    Mode.deduce { bytes := 1, mounts := 1 } noVars false false =
      .ok (.Grid (GridOptions.deduce { bytes := 1, mounts := 1 })) :=
  ⟨(strict_useless_long_first { bytes := 1, mounts := 1 } noVars false
      ⟨rfl, rfl, rfl, rfl⟩).2.1 rfl (by decide),
   (strict_useless_long_first { bytes := 1, mounts := 1 } noVars false
      ⟨rfl, rfl, rfl, rfl⟩).2.2.2.2.2.2.2.2.2.2⟩

theorem time_format_deduce_plus (o : Opts) (v : Vars) (w : String)
    (hw : timeStyleWord o v = some w) (hp : startsWithPlus w = true) :
    TimeFormat.deduce o v =
      match rustLines (afterPlus w) with
      | [] => .abort emptyNonRecentMsg
      | non_recent :: rest =>
        if non_recent = "" then .abort emptyNonRecentMsg
        else
          match rest with
          | [] => .ok (.Custom non_recent none)
          | recent :: _ =>
            if recent = "" then .abort emptyRecentMsg
            else .ok (.Custom non_recent (some recent)) := by
  have h1 : w ≠ "default" := by rintro rfl; exact absurd hp (by decide)
  have h2 : w ≠ "relative" := by rintro rfl; exact absurd hp (by decide)
  have h3 : w ≠ "iso" := by rintro rfl; exact absurd hp (by decide)
  have h4 : w ≠ "long-iso" := by rintro rfl; exact absurd hp (by decide)
  have h5 : w ≠ "full-iso" := by rintro rfl; exact absurd hp (by decide)
  rw [TimeFormat.deduce, hw]
  simp only [h1, h2, h3, h4, h5, hp, if_false, if_true, ite_false, ite_true]

/-- C3: a custom time-style word (leading `+`) whose text has no first
line or an empty first line makes `TimeFormat::deduce` abort the process
(a panic, not a `BadArgument`); a present-but-empty second line likewise
aborts; otherwise the result is `Custom` with the first line as the
non-recent format and the optional second line as the recent one. -/
theorem time_format_custom_empty_aborts (o : Opts) (v : Vars) (w : String)
    (hw : timeStyleWord o v = some w) (hp : startsWithPlus w = true) :
    (rustLines (afterPlus w) = [] → TimeFormat.deduce o v = .abort emptyNonRecentMsg) ∧
    (∀ first rest, rustLines (afterPlus w) = first :: rest →
      (first = "" → TimeFormat.deduce o v = .abort emptyNonRecentMsg) ∧
      (first ≠ "" → rest = [] → TimeFormat.deduce o v = .ok (.Custom first none)) ∧
      (∀ second rest2, first ≠ "" → rest = second :: rest2 →
        (second = "" → TimeFormat.deduce o v = .abort emptyRecentMsg) ∧
        (second ≠ "" → TimeFormat.deduce o v = .ok (.Custom first (some second))))) := by
  have hd := time_format_deduce_plus o v w hw hp
  constructor
  · intro hnil
    rw [hd, hnil]
  · intro first rest hcons
    rw [hd, hcons]
    refine ⟨?_, ?_, ?_⟩
    · intro hfe
      simp [hfe]
    · intro hfne hre
      simp [hfne, hre]
    · intro second rest2 hfne hrc
      subst hrc
      constructor
      · intro hse
        simp [hfne, hse]
      · intro hsne
        simp [hfne, hsne]

/-- Witness for C3: `+` and `+\n` abort with the non-recent message,
`+a\n\n` aborts with the recent message, `+a\nb` and `+a` succeed. -/
theorem time_format_custom_empty_aborts_witness :
    TimeFormat.deduce { time_style := some "+" } noVars = .abort emptyNonRecentMsg ∧
    TimeFormat.deduce { time_style := some "+\n" } noVars = .abort emptyNonRecentMsg ∧
    TimeFormat.deduce { time_style := some "+a\n\n" } noVars = .abort emptyRecentMsg ∧
    TimeFormat.deduce { time_style := some "+a\nb" } noVars = .ok (.Custom "a" (some "b")) ∧
    TimeFormat.deduce { time_style := some "+a" } noVars = .ok (.Custom "a" none) :=
  ⟨(time_format_custom_empty_aborts { time_style := some "+" } noVars "+"
      rfl (by decide)).1 (by decide),
   ((time_format_custom_empty_aborts { time_style := some "+\n" } noVars "+\n"
      rfl (by decide)).2 "" [] (by decide)).1 rfl,
   (((time_format_custom_empty_aborts { time_style := some "+a\n\n" } noVars "+a\n\n"
      rfl (by decide)).2 "a" [""] (by decide)).2.2 "" [] (by decide) rfl).1 rfl,
   (((time_format_custom_empty_aborts { time_style := some "+a\nb" } noVars "+a\nb"
      rfl (by decide)).2 "a" ["b"] (by decide)).2.2 "b" [] (by decide) rfl).2 (by decide),
   ((time_format_custom_empty_aborts { time_style := some "+a" } noVars "+a"
      rfl (by decide)).2 "a" [] (by decide)).2.1 (by decide) rfl⟩

/-- C4: `TimeTypes::deduce` resolution order: `no-time` forces all four
booleans false; else a selector word together with any individual flag is
`Useless(flag, true, "time")` naming the first set flag in the order
modified, changed, accessed, created; else the word must be one of the
eight known spellings (anything else is `BadArgument("time", word)`);
else set individual flags select exactly themselves; else the default
record has only `modified` true. -/
theorem time_types_resolution (o : Opts) :
    (0 < o.no_time →
      TimeTypes.deduce o =
        .ok { modified := false, changed := false, accessed := false, created := false }) ∧
    (o.no_time = 0 → ∀ w, o.time = some w →
      (0 < o.modified → TimeTypes.deduce o = .err (.Useless "modified" true "time")) ∧
      (o.modified = 0 → 0 < o.changed →
        TimeTypes.deduce o = .err (.Useless "changed" true "time")) ∧
      (o.modified = 0 → o.changed = 0 → 0 < o.accessed →
        TimeTypes.deduce o = .err (.Useless "accessed" true "time")) ∧
      (o.modified = 0 → o.changed = 0 → o.accessed = 0 → 0 < o.created →
        TimeTypes.deduce o = .err (.Useless "created" true "time")) ∧
      (o.modified = 0 → o.changed = 0 → o.accessed = 0 → o.created = 0 →
        ((w = "mod" ∨ w = "modified") → TimeTypes.deduce o =
          .ok { modified := true, changed := false, accessed := false, created := false }) ∧
        ((w = "ch" ∨ w = "changed") → TimeTypes.deduce o =
          .ok { modified := false, changed := true, accessed := false, created := false }) ∧
        ((w = "acc" ∨ w = "accessed") → TimeTypes.deduce o =
          .ok { modified := false, changed := false, accessed := true, created := false }) ∧
        ((w = "cr" ∨ w = "created") → TimeTypes.deduce o =
          .ok { modified := false, changed := false, accessed := false, created := true }) ∧
        (w ∉ (["mod", "modified", "ch", "changed", "acc", "accessed", "cr", "created"] :
            List String) →
          TimeTypes.deduce o = .err (.BadArgument "time" w)))) ∧
    (o.no_time = 0 → o.time = none →
      (0 < o.modified ∨ 0 < o.changed ∨ 0 < o.accessed ∨ 0 < o.created) →
      TimeTypes.deduce o =
        .ok { modified := decide (0 < o.modified), changed := decide (0 < o.changed),
              accessed := decide (0 < o.accessed), created := decide (0 < o.created) }) ∧
    (o.no_time = 0 → o.time = none → o.modified = 0 → o.changed = 0 → o.accessed = 0 →
      o.created = 0 → TimeTypes.deduce o = .ok TimeTypes.dfault) := by
  refine ⟨?_, ?_, ?_, ?_⟩
  · intro hnt
    simp [TimeTypes.deduce, hnt]
  · intro hnt w hword
    refine ⟨?_, ?_, ?_, ?_, ?_⟩
    · intro hm
      simp_all [TimeTypes.deduce]
    · intro hm hc
      simp_all [TimeTypes.deduce]
    · intro hm hc ha
      simp_all [TimeTypes.deduce]
    · intro hm hc ha hcr
      simp_all [TimeTypes.deduce]
    · intro hm hc ha hcr
      refine ⟨?_, ?_, ?_, ?_, ?_⟩ <;> intro hwv
      · rcases hwv with rfl | rfl <;> simp [TimeTypes.deduce, hnt, hword, hm, hc, ha, hcr]
      · rcases hwv with rfl | rfl <;> simp [TimeTypes.deduce, hnt, hword, hm, hc, ha, hcr]
      · rcases hwv with rfl | rfl <;> simp [TimeTypes.deduce, hnt, hword, hm, hc, ha, hcr]
      · rcases hwv with rfl | rfl <;> simp [TimeTypes.deduce, hnt, hword, hm, hc, ha, hcr]
      · simp_all [TimeTypes.deduce]
  · intro hnt hword hflag
    have hne : ¬(0 < o.modified ∨ 0 < o.changed ∨ 0 < o.accessed ∨ 0 < o.created) → False :=
      fun hn => hn hflag
    simp_all [TimeTypes.deduce]
  · intro hnt hword hm hc ha hcr
    simp_all [TimeTypes.deduce]

/-- Witness for C4: the five resolution outcomes at concrete records. -/
theorem time_types_resolution_witness :
    TimeTypes.deduce { no_time := 1, modified := 1, time := some "cr" } =
      .ok { modified := false, changed := false, accessed := false, created := false } ∧
    TimeTypes.deduce { time := some "mod", changed := 1 } =
      .err (.Useless "changed" true "time") ∧
    TimeTypes.deduce { time := some "acc" } =
      .ok { modified := false, changed := false, accessed := true, created := false } ∧
    TimeTypes.deduce { time := some "nope" } = .err (.BadArgument "time" "nope") ∧
    TimeTypes.deduce { changed := 1, created := 1 } =
      .ok { modified := false, changed := true, accessed := false, created := true } ∧
    TimeTypes.deduce {} = .ok TimeTypes.dfault :=
  ⟨(time_types_resolution { no_time := 1, modified := 1, time := some "cr" }).1 (by decide),
   ((time_types_resolution { time := some "mod", changed := 1 }).2.1 rfl "mod" rfl).2.1
      rfl (by decide),
   (((time_types_resolution { time := some "acc" }).2.1 rfl "acc" rfl).2.2.2.2
      rfl rfl rfl rfl).2.2.1 (Or.inl rfl),
   (((time_types_resolution { time := some "nope" }).2.1 rfl "nope" rfl).2.2.2.2
      rfl rfl rfl rfl).2.2.2.2 (by decide),
   (time_types_resolution { changed := 1, created := 1 }).2.2.1 rfl rfl
      (Or.inr (Or.inl (by decide))),
   (time_types_resolution {}).2.2.2 rfl rfl rfl rfl rfl rfl⟩

/-- C6: the time-style word is the explicit flag value if present, else
the non-empty `TIME_STYLE` environment value, else the result is the
default format with no error; the resolved word is matched
case-sensitively against the five known names, and a word that matches
none of them and does not start with `+` is
`BadArgument("time-style", word)`. -/
theorem time_format_word_resolution (o : Opts) (v : Vars) :
    (∀ w, o.time_style = some w → timeStyleWord o v = some w) ∧
    (o.time_style = none → ∀ t, v TIME_STYLE_VAR = some t → t ≠ "" →
      timeStyleWord o v = some t) ∧
    (o.time_style = none → v TIME_STYLE_VAR = some "" →
      TimeFormat.deduce o v = .ok .DefaultFormat) ∧
    (o.time_style = none → v TIME_STYLE_VAR = none →
      TimeFormat.deduce o v = .ok .DefaultFormat) ∧
    (∀ w, timeStyleWord o v = some w →
      (w = "default" → TimeFormat.deduce o v = .ok .DefaultFormat) ∧
      (w = "relative" → TimeFormat.deduce o v = .ok .Relative) ∧
      (w = "iso" → TimeFormat.deduce o v = .ok .ISOFormat) ∧
      (w = "long-iso" → TimeFormat.deduce o v = .ok .LongISO) ∧
      (w = "full-iso" → TimeFormat.deduce o v = .ok .FullISO) ∧
      (w ∉ (["default", "relative", "iso", "long-iso", "full-iso"] : List String) →
        startsWithPlus w = false →
        TimeFormat.deduce o v = .err (.BadArgument "time-style" w))) := by
  refine ⟨?_, ?_, ?_, ?_, ?_⟩
  · intro w hw
    simp [timeStyleWord, hw]
  · intro hfl t ht hne
    simp [timeStyleWord, hfl, ht, hne]
  · intro hfl ht
    simp [TimeFormat.deduce, timeStyleWord, hfl, ht]
  · intro hfl ht
    simp [TimeFormat.deduce, timeStyleWord, hfl, ht]
  · intro w hw
    refine ⟨?_, ?_, ?_, ?_, ?_, ?_⟩
    · rintro rfl
      simp [TimeFormat.deduce, hw]
    · rintro rfl
      simp [TimeFormat.deduce, hw]
    · rintro rfl
      simp [TimeFormat.deduce, hw]
    · rintro rfl
      simp [TimeFormat.deduce, hw]
    · rintro rfl
      simp [TimeFormat.deduce, hw]
    · intro hnotin hplus
      simp only [List.mem_cons, List.mem_singleton, not_or] at hnotin
      obtain ⟨h1, h2, h3, h4, h5, -⟩ := hnotin
      rw [TimeFormat.deduce, hw]
      simp [h1, h2, h3, h4, h5, hplus]

/-- Witness for C6: flag value beats a set environment value, a non-empty
environment value is used, an empty one falls back to the default, and an
unknown word is rejected. -/
theorem time_format_word_resolution_witness :
    timeStyleWord { time_style := some "iso" } (oneVar TIME_STYLE_VAR "relative") =
      some "iso" ∧
    timeStyleWord {} (oneVar TIME_STYLE_VAR "relative") = some "relative" ∧
    TimeFormat.deduce {} (oneVar TIME_STYLE_VAR "") = .ok .DefaultFormat ∧
    TimeFormat.deduce {} noVars = .ok .DefaultFormat ∧
    TimeFormat.deduce { time_style := some "iso" } (oneVar TIME_STYLE_VAR "relative") =
      .ok .ISOFormat ∧
    TimeFormat.deduce { time_style := some "nice" } noVars =
      .err (.BadArgument "time-style" "nice") :=
  ⟨(time_format_word_resolution { time_style := some "iso" }
      (oneVar TIME_STYLE_VAR "relative")).1 "iso" rfl,
   (time_format_word_resolution {} (oneVar TIME_STYLE_VAR "relative")).2.1 rfl
      "relative" (by decide) (by decide),
   (time_format_word_resolution {} (oneVar TIME_STYLE_VAR "")).2.2.1 rfl (by decide),
   (time_format_word_resolution {} noVars).2.2.2.1 rfl rfl,
   ((time_format_word_resolution { time_style := some "iso" }
      (oneVar TIME_STYLE_VAR "relative")).2.2.2.2 "iso" rfl).2.2.1 rfl,
   ((time_format_word_resolution { time_style := some "nice" } noVars).2.2.2.2 "nice"
      rfl).2.2.2.2.2 (by decide) (by decide)⟩

theorem colorScaleWords_ok_preserves (ws : List String) (acc r : ColorScaleOptions)
    (h : colorScaleWords ws acc = .ok r) :
    r.min_luminance = acc.min_luminance ∧ r.mode = acc.mode := by
  induction ws generalizing acc with
  | nil =>
    rw [colorScaleWords] at h
    injection h with h
    rw [← h]
    exact ⟨rfl, rfl⟩
  | cons w ws ih =>
    rw [colorScaleWords] at h
    by_cases h1 : w = "all"
    · rw [if_pos h1] at h
      exact ih { acc with size := true, age := true } h
    · rw [if_neg h1] at h
      by_cases h2 : w = "age"
      · rw [if_pos h2] at h
        exact ih { acc with age := true } h
      · rw [if_neg h2] at h
        by_cases h3 : w = "size"
        · rw [if_pos h3] at h
          exact ih { acc with size := true } h
        · rw [if_neg h3] at h
          exact RustResult.noConfusion h

theorem colorScaleWords_err_shape (ws : List String) (acc : ColorScaleOptions)
    (e : OptionsErrorT) (h : colorScaleWords ws acc = .err e) :
    ∃ w, e = .BadArgument "color-scale" w := by
  induction ws generalizing acc with
  | nil =>
    rw [colorScaleWords] at h
    exact RustResult.noConfusion h
  | cons w ws ih =>
    rw [colorScaleWords] at h
    by_cases h1 : w = "all"
    · rw [if_pos h1] at h
      exact ih { acc with size := true, age := true } h
    · rw [if_neg h1] at h
      by_cases h2 : w = "age"
      · rw [if_pos h2] at h
        exact ih { acc with age := true } h
      · rw [if_neg h2] at h
        by_cases h3 : w = "size"
        · rw [if_pos h3] at h
          exact ih { acc with size := true } h
        · rw [if_neg h3] at h
          injection h with h
          exact ⟨w, h.symm⟩

theorem colorScaleWords_never_aborts (ws : List String) (acc : ColorScaleOptions)
    (msg : String) : colorScaleWords ws acc ≠ .abort msg := by
  induction ws generalizing acc with
  | nil =>
    rw [colorScaleWords]
    exact fun h => RustResult.noConfusion h
  | cons w ws ih =>
    rw [colorScaleWords]
    by_cases h1 : w = "all"
    · rw [if_pos h1]
      exact ih { acc with size := true, age := true }
    · rw [if_neg h1]
      by_cases h2 : w = "age"
      · rw [if_pos h2]
        exact ih { acc with age := true }
      · rw [if_neg h2]
        by_cases h3 : w = "size"
        · rw [if_pos h3]
          exact ih { acc with size := true }
        · rw [if_neg h3]
          exact fun h => RustResult.noConfusion h

theorem minLuminanceOf_range (v : Vars) :
    -100 ≤ minLuminanceOf v ∧ minLuminanceOf v ≤ 100 := by
  rw [minLuminanceOf]
  split
  · split
    · split
      · assumption
      · exact ⟨by norm_num, by norm_num⟩
    · exact ⟨by norm_num, by norm_num⟩
  · exact ⟨by norm_num, by norm_num⟩

/-- C7: luminance resolution is lenient and never fails: the value from
the fallback key pair is used exactly when it parses inside
`[-100, 100]`, anything else (absent, unparsable, out of range) silently
becomes the default 40; every error `ColorScaleOptions::deduce` can
return concerns the color-scale token list, and every success carries the
resolved luminance, which is always inside `[-100, 100]`. -/
theorem min_luminance_lenient (v : Vars) :
    (getWithFallback v EZA_MIN_LUMINANCE EXA_MIN_LUMINANCE = none → minLuminanceOf v = 40) ∧
    (∀ s, getWithFallback v EZA_MIN_LUMINANCE EXA_MIN_LUMINANCE = some s →
      (rustParseInt s = none → minLuminanceOf v = 40) ∧
      (∀ l, rustParseInt s = some l →
        (-100 ≤ l ∧ l ≤ 100 → minLuminanceOf v = l) ∧
        (¬(-100 ≤ l ∧ l ≤ 100) → minLuminanceOf v = 40))) ∧
    (-100 ≤ minLuminanceOf v ∧ minLuminanceOf v ≤ 100) ∧
    (∀ o opts, ColorScaleOptions.deduce o v = .ok opts →
      opts.min_luminance = minLuminanceOf v) ∧
    (∀ o e, ColorScaleOptions.deduce o v = .err e →
      ∃ w, e = .BadArgument "color-scale" w) ∧
    (∀ o msg, ColorScaleOptions.deduce o v ≠ .abort msg) := by
  refine ⟨?_, ?_, minLuminanceOf_range v, ?_, ?_, ?_⟩
  · intro h
    simp [minLuminanceOf, h]
  · intro s hs
    refine ⟨?_, ?_⟩
    · intro hp
      simp [minLuminanceOf, hs, hp]
    · intro l hl
      refine ⟨?_, ?_⟩
      · intro hin
        simp [minLuminanceOf, hs, hl, hin]
      · intro hout
        simp [minLuminanceOf, hs, hl, hout]
  · intro o opts h
    rw [ColorScaleOptions.deduce] at h
    split at h
    · injection h with h
      rw [← h]
    · exact (colorScaleWords_ok_preserves _ _ _ h).1
  · intro o e h
    rw [ColorScaleOptions.deduce] at h
    split at h
    · exact RustResult.noConfusion h
    · exact colorScaleWords_err_shape _ _ _ h
  · intro o msg h
    rw [ColorScaleOptions.deduce] at h
    split at h
    · exact RustResult.noConfusion h
    · exact colorScaleWords_never_aborts _ _ _ h

/-- Witness for C7: in-range value kept, out-of-range and unparsable
values silently default, legacy key works, success carries the value,
and an unknown token is the only failure. -/
theorem min_luminance_lenient_witness :
    minLuminanceOf noVars = 40 ∧
    minLuminanceOf (oneVar EZA_MIN_LUMINANCE "-60") = -60 ∧
    minLuminanceOf (oneVar EXA_MIN_LUMINANCE "500") = 40 ∧
    minLuminanceOf (oneVar EZA_MIN_LUMINANCE "bad") = 40 ∧
    (∃ w, OptionsErrorT.BadArgument "color-scale" "nope" = .BadArgument "color-scale" w) :=
  ⟨(min_luminance_lenient noVars).1 rfl,
   (((min_luminance_lenient (oneVar EZA_MIN_LUMINANCE "-60")).2.1 "-60" (by decide)).2
      (-60) (by decide)).1 (by decide),
   (((min_luminance_lenient (oneVar EXA_MIN_LUMINANCE "500")).2.1 "500" (by decide)).2
      500 (by decide)).2 (by decide),
   ((min_luminance_lenient (oneVar EZA_MIN_LUMINANCE "bad")).2.1 "bad" (by decide)).1
      (by decide),
   (min_luminance_lenient noVars).2.2.2.2.1 { color_scale := some "nope" } _ (by decide)⟩

theorem getWithFallback_isSome (v : Vars) (a b : String) :
    (getWithFallback v a b).isSome = ((v a).isSome || (v b).isSome) := by
  rw [getWithFallback]
  rcases v a with - | x <;> simp

/-- C8: in every `Columns` record that `Columns::deduce` returns, the
presence of the git-override variable under either key forces the three
git booleans false; `subdir_git_repos` holds exactly when the repos flag
is set with `no-git` unset and no override; `subdir_git_repos_no_stat`
holds exactly when the repos-no-status flag is set, `subdir_git_repos`
does not hold, `no-git` is unset and no override is present; hence the
two are never both true and repos wins over repos-no-status. -/
theorem columns_git_exclusion (o : Opts) (v : Vars) (xe : Bool) (c : Columns)
    (h : Columns.deduce o v xe = .ok c) :
    ((v EXA_OVERRIDE_GIT).isSome ∨ (v EZA_OVERRIDE_GIT).isSome →
      c.git = false ∧ c.subdir_git_repos = false ∧ c.subdir_git_repos_no_stat = false) ∧
    (c.subdir_git_repos = true ↔
      0 < o.git_repos ∧ o.no_git = 0 ∧
        v EXA_OVERRIDE_GIT = none ∧ v EZA_OVERRIDE_GIT = none) ∧
    (c.subdir_git_repos_no_stat = true ↔
      0 < o.git_repos_no_status ∧ c.subdir_git_repos = false ∧ o.no_git = 0 ∧
        v EXA_OVERRIDE_GIT = none ∧ v EZA_OVERRIDE_GIT = none) ∧
    ¬(c.subdir_git_repos = true ∧ c.subdir_git_repos_no_stat = true) := by
  rw [Columns.deduce] at h
  obtain ⟨tt, -, h2⟩ := (RustResult.bind_ok_iff _ _ _).mp h
  injection h2 with h2
  have hg : c.subdir_git_repos =
      (decide (0 < o.git_repos) && o.no_git == 0 &&
        !(getWithFallback v EXA_OVERRIDE_GIT EZA_OVERRIDE_GIT).isSome) := by
    rw [← h2]
  have hns : c.subdir_git_repos_no_stat =
      (!(decide (0 < o.git_repos) && o.no_git == 0 &&
          !(getWithFallback v EXA_OVERRIDE_GIT EZA_OVERRIDE_GIT).isSome) &&
        decide (0 < o.git_repos_no_status) && o.no_git == 0 &&
        !(getWithFallback v EXA_OVERRIDE_GIT EZA_OVERRIDE_GIT).isSome) := by
    rw [← h2]
  have hgit : c.git =
      (decide (0 < o.git) && o.no_git == 0 &&
        !(getWithFallback v EXA_OVERRIDE_GIT EZA_OVERRIDE_GIT).isSome) := by
    rw [← h2]
  have hover := getWithFallback_isSome v EXA_OVERRIDE_GIT EZA_OVERRIDE_GIT
  refine ⟨?_, ?_, ?_, ?_⟩
  · intro hpres
    have hsome : (getWithFallback v EXA_OVERRIDE_GIT EZA_OVERRIDE_GIT).isSome = true := by
      rw [hover]
      rcases hpres with hp | hp <;> simp [hp]
    rw [hgit, hg, hns, hsome]
    simp
  · rw [hg, hover]
    rcases v EXA_OVERRIDE_GIT with - | x <;> rcases v EZA_OVERRIDE_GIT with - | y <;>
      simp
  · rw [hns, hg, hover]
    rcases v EXA_OVERRIDE_GIT with - | x <;> rcases v EZA_OVERRIDE_GIT with - | y <;>
      simp
    omega
  · rw [hns, hg]
    rcases hso : (getWithFallback v EXA_OVERRIDE_GIT EZA_OVERRIDE_GIT).isSome <;> simp
    omega

/-- Witness for C8: with both repos flags set and no override the repos
column wins; with the legacy override key present everything is off. -/
theorem columns_git_exclusion_witness :
    (∃ c, Columns.deduce { git_repos := 1, git_repos_no_status := 1 } noVars false = .ok c ∧
      c.subdir_git_repos = true ∧ c.subdir_git_repos_no_stat = false) ∧
    (∃ c, Columns.deduce { git := 1, git_repos := 1, git_repos_no_status := 1 }
        (oneVar EXA_OVERRIDE_GIT "1") false = .ok c ∧
      c.git = false ∧ c.subdir_git_repos = false ∧ c.subdir_git_repos_no_stat = false) := by
  constructor
  · have h : Columns.deduce { git_repos := 1, git_repos_no_status := 1 } noVars false =
        .ok { defaultColumns with subdir_git_repos := true } := by decide
    have hc := columns_git_exclusion { git_repos := 1, git_repos_no_status := 1 } noVars false _ h
    exact ⟨_, h, hc.2.1.mpr ⟨by decide, rfl, rfl, rfl⟩, by decide⟩
  · have h : Columns.deduce { git := 1, git_repos := 1, git_repos_no_status := 1 }
        (oneVar EXA_OVERRIDE_GIT "1") false = .ok defaultColumns := by decide
    exact ⟨_, h, (columns_git_exclusion { git := 1, git_repos := 1, git_repos_no_status := 1 }
      (oneVar EXA_OVERRIDE_GIT "1") false _ h).1 (Or.inl (by decide))⟩

theorem timeFormat_err_shape (o : Opts) (v : Vars) (e : OptionsErrorT)
    (h : TimeFormat.deduce o v = .err e) : ∃ w, e = .BadArgument "time-style" w := by
  rw [TimeFormat.deduce] at h
  repeat' split at h
  all_goals
    first
      | exact RustResult.noConfusion h
      | (injection h with h; exact ⟨_, h.symm⟩)

theorem timeTypes_err_shape (o : Opts) (e : OptionsErrorT)
    (h : TimeTypes.deduce o = .err e) :
    (∃ n, e = .Useless n true "time") ∨ (∃ w, e = .BadArgument "time" w) := by
  rw [TimeTypes.deduce] at h
  repeat' split at h
  all_goals
    first
      | exact RustResult.noConfusion h
      | (injection h with h; exact Or.inl ⟨_, h.symm⟩)
      | (injection h with h; exact Or.inr ⟨_, h.symm⟩)

theorem columns_err_shape (o : Opts) (v : Vars) (xe : Bool) (e : OptionsErrorT)
    (h : Columns.deduce o v xe = .err e) :
    (∃ n, e = .Useless n true "time") ∨ (∃ w, e = .BadArgument "time" w) := by
  rw [Columns.deduce] at h
  rcases (RustResult.bind_err_iff _ _ _).mp h with h1 | ⟨a, -, h2⟩
  · exact timeTypes_err_shape o e h1
  · exact RustResult.noConfusion h2

theorem tableOptions_err_shape (o : Opts) (v : Vars) (xe : Bool) (e : OptionsErrorT)
    (h : TableOptions.deduce o v xe = .err e) :
    (∃ w, e = .BadArgument "time-style" w) ∨
    (∃ n, e = .Useless n true "time") ∨ (∃ w, e = .BadArgument "time" w) := by
  rw [TableOptions.deduce] at h
  rcases (RustResult.bind_err_iff _ _ _).mp h with h1 | ⟨a, -, h2⟩
  · exact Or.inl (timeFormat_err_shape o v e h1)
  · rcases (RustResult.bind_err_iff _ _ _).mp h2 with h3 | ⟨b, -, h4⟩
    · exact Or.inr (columns_err_shape o v xe e h3)
    · exact RustResult.noConfusion h4

/-- C9: under strict mode the long construction path rejects `across`
without `grid` first (as `Useless("across", true, "long")`), then
`oneline` at all (as `Useless("one-line", true, "long")`); without strict
mode the same records never produce either of those errors. -/
theorem deduce_long_strict_checks (o : Opts) (v : Vars) (xe : Bool) :
    (0 < o.across → o.grid = 0 →
      DetailsOptions.deduce_long o v true xe = .err (.Useless "across" true "long")) ∧
    (¬(0 < o.across ∧ o.grid = 0) → 0 < o.oneline →
      DetailsOptions.deduce_long o v true xe = .err (.Useless "one-line" true "long")) ∧
    (∀ e, DetailsOptions.deduce_long o v false xe = .err e →
      e ≠ .Useless "across" true "long" ∧ e ≠ .Useless "one-line" true "long") := by
  refine ⟨?_, ?_, ?_⟩
  · intro ha hg
    rw [DetailsOptions.deduce_long, if_pos ⟨rfl, ha, hg⟩]
  · intro hng ho
    rw [DetailsOptions.deduce_long, if_neg (by simpa using hng), if_pos ⟨rfl, ho⟩]
  · intro e h
    rw [DetailsOptions.deduce_long, if_neg (by simp), if_neg (by simp)] at h
    rcases (RustResult.bind_err_iff _ _ _).mp h with h1 | ⟨t, -, h2⟩
    · rcases tableOptions_err_shape o v xe e h1 with ⟨w, rfl⟩ | ⟨n, rfl⟩ | ⟨w, rfl⟩ <;> simp
    · rcases (RustResult.bind_err_iff _ _ _).mp h2 with h3 | ⟨cs, -, h4⟩
      · obtain ⟨w, rfl⟩ := (min_luminance_lenient v).2.2.2.2.1 o e h3
        simp
      · exact RustResult.noConfusion h4

/-- Witness for C9: `across` without `grid` and `oneline` under long are
rejected only under strict mode; without it the same records build
details, so a hypothetical error is impossible and the no-error clause
holds vacuously at any error value. -/
theorem deduce_long_strict_checks_witness :
    DetailsOptions.deduce_long { long := 1, across := 1, oneline := 1 } noVars true false =
      .err (.Useless "across" true "long") ∧
    DetailsOptions.deduce_long { long := 1, oneline := 1 } noVars true false =
      .err (.Useless "one-line" true "long") ∧
    (DetailsOptions.deduce_long { long := 1, across := 1, oneline := 1 } noVars false false =
        .err (.Useless "across" true "long") →
      False) :=
  ⟨(deduce_long_strict_checks { long := 1, across := 1, oneline := 1 } noVars false).1
      (by decide) rfl,
   (deduce_long_strict_checks { long := 1, oneline := 1 } noVars false).2.1
      (by simp) (by decide),
   fun h =>
    ((deduce_long_strict_checks { long := 1, across := 1, oneline := 1 } noVars false).2.2
      _ h).1 rfl⟩

end Eza
